import Mathlib

/-!
Shallow embedding of the plagiarism-detector analysis pipeline
(`src/similarity.py`, `src/utils.py`, `src/processors.py`, `src/graph.py`).

Numbers are modelled as exact rationals (`ℚ`). Python's `round(x, n)`
rounds half to even; we model it exactly over `ℚ` with `rhe` below.
Python dicts are modelled as association lists in insertion order, with
assignment `d[k] = v` as `dictInsert` (overwrite in place, else append).
-/

namespace Plag

/-- Round-half-even on rationals: Python's `round` tie-breaking rule. -/
def rhe (x : ℚ) : ℤ :=
  if Int.fract x < 1/2 then ⌊x⌋
  else if 1/2 < Int.fract x then ⌊x⌋ + 1
  else if ⌊x⌋ % 2 = 0 then ⌊x⌋ else ⌊x⌋ + 1

/-- Python `round(x, n)` over exact rationals. -/
def pyRound (n : ℕ) (x : ℚ) : ℚ :=
  (rhe (x * (10 : ℚ) ^ n) : ℚ) / (10 : ℚ) ^ n

/-- `np.mean` over a list of rationals (callers guard against `[]`). -/
def listMean (l : List ℚ) : ℚ := l.sum / (l.length : ℚ)

/-- The spec's `clamp(x, lo, hi)`. -/
def clamp (x lo hi : ℚ) : ℚ := max lo (min hi x)

/-- Python dict assignment on an insertion-ordered association list:
overwrite the value in place if the key exists, else append. -/
def dictInsert {α : Type} (d : List (String × α)) (k : String) (v : α) :
    List (String × α) :=
  match d with
  | [] => [(k, v)]
  | (k', v') :: rest =>
    if k' = k then (k, v) :: rest else (k', v') :: dictInsert rest k v

/-- Case-sensitive substring test (Python's `needle in hay`). -/
def strHas (hay needle : String) : Bool :=
  go hay.data
where
  go : List Char → Bool
  | [] => needle.data.isPrefixOf []
  | c :: rest => needle.data.isPrefixOf (c :: rest) || go rest

/-!
Python string primitives, modelled structurally over the character
list (the core `String` versions are extensionally the same but are
not definitionally reducible).
-/

/-- Python `str.lower()`. -/
def pyLower (s : String) : String := ⟨s.data.map Char.toLower⟩

/-- Python slicing `s[:n]` (by characters). -/
def strTake (s : String) (n : ℕ) : String := ⟨s.data.take n⟩

/-- Python slicing `s[n:]` (by characters). -/
def strDrop (s : String) (n : ℕ) : String := ⟨s.data.drop n⟩

/-- Python `str.strip()`: remove leading and trailing whitespace. -/
def pyStrip (s : String) : String :=
  ⟨((s.data.dropWhile Char.isWhitespace).reverse.dropWhile
      Char.isWhitespace).reverse⟩

/-- Python `sep.join(items)`. -/
def joinWith (sep : String) : List String → String
  | [] => ""
  | [x] => x
  | x :: xs => x ++ sep ++ joinWith sep xs

/-- Split a string at every occurrence of character `c`. -/
def splitChar (c : Char) (s : String) : List String :=
  go s.data []
where
  go : List Char → List Char → List String
  | [], acc => [⟨acc.reverse⟩]
  | d :: rest, acc =>
    if d = c then ⟨acc.reverse⟩ :: go rest [] else go rest (d :: acc)

/-- Maximal runs of non-whitespace characters (helper for `pyWords`). -/
def groupWords : List Char → List (List Char)
  | [] => [[]]
  | c :: rest =>
    let r := groupWords rest
    if c.isWhitespace then [] :: r
    else
      match r with
      | [] => [[c]]
      | h :: t => (c :: h) :: t

/-- Python `str.split()`: whitespace-separated words, no empties. -/
def pyWords (s : String) : List String :=
  ((groupWords s.data).filter fun w => w ≠ []).map fun w => ⟨w⟩

/-! ## Data model (`models/paper_struct.py`, `models/analysis_result.py`) -/

/-- `models/paper_struct.py` `Concept` (pydantic model). The enum
`ConceptType` is kept as its string `.value`. -/
structure Concept where
  name : String
  type : String
  description : String
  /-- the Python field `section` (a Lean keyword) -/
  sectionName : String
  confidence : ℚ
deriving Repr, DecidableEq

/-- `models/paper_struct.py` `PaperSection` (the `concepts` field stays
empty during parsing and is irrelevant to the claims). -/
structure PaperSection where
  content : String
  word_count : ℕ
deriving Repr, DecidableEq

/-- `models/paper_struct.py` `PaperStructure`; `sections` is an
insertion-ordered dict. -/
structure PaperStructure where
  title : String
  sections : List (String × PaperSection)
deriving Repr, DecidableEq

/-- One match dict produced by
`AdvancedSemanticMatcher.cross_similarity_analysis`
(`src/similarity.py` lines 77-87). `is_false_positive` models the
optional dict key read by `format_explainability` via
`match.get("is_false_positive", False)`; the matcher never sets it. -/
structure MatchRec where
  user_concept : String
  matched_concept : String
  similarity_score : ℚ
  /-- the Python dict key `"section"` (a Lean keyword) -/
  sectionTag : String
  match_strength : String
  is_false_positive : Bool := false
deriving Repr, DecidableEq

/-- `models/analysis_result.py` `Explainability`; `attention_weights` is
an insertion-ordered dict. -/
structure Explainability where
  top_contributing_phrases : List String
  attention_weights : List (String × ℚ)
  false_positives_filtered : ℕ
deriving Repr, DecidableEq

/-! ## Embedding index and matcher (`src/similarity.py`) -/

/-- A FAISS vector store, shallowly embedded: `texts` are the page
contents of the docstore in insertion order
(`store.docstore._dict.values()`); `search t k` is
`store.similarity_search_with_score(t, k)`, returning
`(page_content, distance)` pairs from the external FAISS index. -/
structure FaissStore where
  texts : List String
  search : String → ℕ → List (String × ℚ)

/-- `AdvancedSemanticMatcher.__init__`: `user_store = None`,
`internet_stores = {}`. -/
structure AdvancedSemanticMatcher where
  user_store : Option FaissStore := none
  internet_stores : List (String × FaissStore) := []

/-- The canonical text a concept is serialized to before embedding
(`embed_concepts`, lines 22-27). -/
def conceptText (c : Concept) : String :=
  c.name ++ " | " ++ c.description ++ " | section:" ++ c.sectionName ++
    " | type:" ++ c.type

/-- `AdvancedSemanticMatcher.embed_concepts` (lines 16-34).
`fromTexts` stands for the external `FAISS.from_texts(texts,
text_embeddings)` constructor. On an empty concept list the method
returns immediately, leaving the matcher unchanged. -/
def embed_concepts (fromTexts : List String → FaissStore)
    (m : AdvancedSemanticMatcher) (concepts : List Concept)
    (identifier : String) : AdvancedSemanticMatcher :=
  if concepts.isEmpty then m
  else
    let texts := concepts.map conceptText
    let vectorstore := fromTexts texts
    if identifier = "user" then { m with user_store := some vectorstore }
    else
      { m with
        internet_stores := dictInsert m.internet_stores identifier vectorstore }

/-- Per-result body of the inner loop of `cross_similarity_analysis`
(lines 62-87): skipped (`none`) when the derived similarity
`max(0, 1 − distance)` falls below the threshold, else the appended
match dict. -/
def matchOfResult (user_doc : String) (similarity_threshold : ℚ)
    (dd : String × ℚ) : Option MatchRec :=
  let similarity := max 0 (1 - dd.2)
  if similarity < similarity_threshold then none
  else
    let lower := pyLower user_doc
    let sec :=
      if strHas lower "method" || strHas lower "algorithm" then
        "methodology"
      else "other"
    some
      { user_concept := user_doc
        matched_concept := dd.1
        similarity_score := pyRound 3 similarity
        sectionTag := sec
        match_strength :=
          if 85/100 < similarity then "STRONG"
          else if 3/4 < similarity then "MEDIUM"
          else "WEAK" }

/-- Body of the per-store loop of `cross_similarity_analysis`
(lines 54-87): the `matches` list accumulated over all user docs,
before the `[:10]` cap. -/
def paperMatches (userDocs : List String) (store : FaissStore)
    (similarity_threshold : ℚ) : List MatchRec :=
  userDocs.flatMap fun user_doc =>
    (store.search user_doc 8).filterMap (matchOfResult user_doc similarity_threshold)

/-- `AdvancedSemanticMatcher.cross_similarity_analysis` (lines 39-92).
Raises `ValueError` when the user store was never built; otherwise one
entry per internet store in insertion order, each capped at 10. -/
def cross_similarity_analysis (m : AdvancedSemanticMatcher)
    (similarity_threshold : ℚ) :
    Except String (List (String × List MatchRec)) :=
  match m.user_store with
  | none => .error "ValueError: User concepts must be embedded first"
  | some us =>
    .ok (m.internet_stores.map fun ps =>
      (ps.1, (paperMatches us.texts ps.2 similarity_threshold).take 10))

/-! ## Aggregate scoring (`src/similarity.py` lines 97-173) -/

/-- One entry of `paper_scores` (`compute_aggregate_scores`,
lines 132-142). -/
structure PaperScore where
  overlap_percentage : ℚ
  high_risk_matches : ℕ
  total_matches : ℕ
  risk_category : String
deriving Repr, DecidableEq

/-- The dict returned by `compute_aggregate_scores`. `none` stands for
Python `None` in the sentinel branch. -/
structure AggregateScores where
  overall_overlap_pct : Option ℚ
  novelty_score : Option ℚ
  total_papers_analyzed : ℕ
  total_high_risk_matches : ℕ
  paper_breakdown : List (String × PaperScore)
  risk_assessment : String
deriving Repr, DecidableEq

/-- Weighted similarity of one match (lines 120-123): `×1.5` when the
match's section tag is `"methodology"`, `×1.0` otherwise. -/
def weightedScore (m : MatchRec) : ℚ :=
  m.similarity_score * (if m.sectionTag = "methodology" then 3/2 else 1)

/-- The per-candidate score computed in the loop body of
`compute_aggregate_scores` (lines 119-142), for a nonempty match list.
In this typed embedding every match dict has a numeric
`similarity_score`, so Python's `clean_matches` filter keeps
everything and collapses into the single emptiness guard. -/
def perPaperScore (ms : List MatchRec) : PaperScore :=
  let avg_similarity := listMean (ms.map weightedScore)
  { overlap_percentage := pyRound 1 (avg_similarity * 100)
    high_risk_matches :=
      (ms.filter fun m => 85/100 < m.similarity_score).length
    total_matches := ms.length
    risk_category :=
      if 9/10 < avg_similarity then "CRITICAL"
      else if 8/10 < avg_similarity then "HIGH"
      else if 7/10 < avg_similarity then "MEDIUM"
      else "LOW" }

/-- The `paper_scores` dict built by the loop of
`compute_aggregate_scores` (lines 103-142): the input models the Python
dict `matches_by_paper`, whose keys are unique, so the
`paper_scores[paper_id] = ...` assignments append in iteration order;
candidates with an empty (clean) match list are skipped (`continue`),
the rest are scored by `perPaperScore`. -/
def paperScores (matches_by_paper : List (String × List MatchRec)) :
    List (String × PaperScore) :=
  (matches_by_paper.filter fun p => !p.2.isEmpty).map fun p =>
    (p.1, perPaperScore p.2)

/-- `overall_overlap` (line 157-159): `np.mean` of the per-candidate
overlap percentages of `paper_scores`. -/
def overallOverlap (matches_by_paper : List (String × List MatchRec)) : ℚ :=
  listMean ((paperScores matches_by_paper).map fun p =>
    p.2.overlap_percentage)

/-- `AdvancedSemanticMatcher.compute_aggregate_scores` (lines 97-173). -/
def compute_aggregate_scores (matches_by_paper : List (String × List MatchRec)) :
    AggregateScores :=
  let paper_scores := paperScores matches_by_paper
  let total_high_risk_matches :=
    (paper_scores.map fun p => p.2.high_risk_matches).sum
  if paper_scores.isEmpty then
    { overall_overlap_pct := none
      novelty_score := none
      total_papers_analyzed := 0
      total_high_risk_matches := 0
      paper_breakdown := []
      risk_assessment := "UNKNOWN" }
  else
    let overall_overlap := overallOverlap matches_by_paper
    let novelty_score := max 0 (100 - overall_overlap)
    { overall_overlap_pct := some (pyRound 1 overall_overlap)
      novelty_score := some (pyRound 1 novelty_score)
      total_papers_analyzed := paper_scores.length
      total_high_risk_matches := total_high_risk_matches
      paper_breakdown := paper_scores
      risk_assessment :=
        if 60 < overall_overlap then "HIGH"
        else if 30 < overall_overlap then "MEDIUM"
        else "LOW" }

/-! ## Explainability formatter (`src/utils.py` lines 37-97) -/

/-- The contributing phrase of a match (`utils.py` line 64): the source
concept text truncated to 80 characters, stripped. -/
def phraseOf (m : MatchRec) : String := pyStrip (strTake m.user_concept 80)

/-- The attention-weight key of the entry at ordinal `i`
(`utils.py` line 67): `f"{idx}_{phrase}"`. -/
def keyOf (i : ℕ) (m : MatchRec) : String :=
  toString i ++ "_" ++ phraseOf m

/-- Loop body of `format_explainability` for the dict-based branch
(lines 52-73); `im` carries the `enumerate` index. Matcher output is
always dict-shaped, so the object-based branch (lines 78-91) is dead
here. `match.get("similarity_score", 0.5)` always finds the key in
this typed embedding. -/
def explainStep (acc : List String × List (String × ℚ) × ℕ)
    (im : ℕ × MatchRec) : List String × List (String × ℚ) × ℕ :=
  let concept := im.2.user_concept
  if concept = "" then acc
  else
    (acc.1 ++ [phraseOf im.2],
      dictInsert acc.2.1 (keyOf im.1 im.2) im.2.similarity_score,
      acc.2.2 + if im.2.is_false_positive then 1 else 0)

/-- `format_explainability` (`src/utils.py` lines 37-97): early return
on empty input, otherwise a loop over `enumerate(matches[:10])`. -/
def format_explainability (ms : List MatchRec) : Explainability :=
  if ms.isEmpty then
    { top_contributing_phrases := []
      attention_weights := []
      false_positives_filtered := 0 }
  else
    let acc := (ms.take 10).enum.foldl explainStep ([], [], 0)
    { top_contributing_phrases := acc.1
      attention_weights := acc.2.1
      false_positives_filtered := acc.2.2 }

/-! ## Paper structure extraction (`src/processors.py`) -/

/-- All character positions (possibly overlapping) at which `needle`
occurs in `hay`. Models `re.finditer` occurrence starts; the `\b` word
boundaries of `SECTION_PATTERNS` and finditer's non-overlap rule are
approximated by plain substring occurrence — equal on the inputs the
theorems below evaluate, and irrelevant to the fallback behaviour they
are about. -/
def occStarts (hay needle : String) : List ℕ :=
  (List.range hay.length).filter fun i =>
    needle.data.isPrefixOf (hay.data.drop i)

/-- `SECTION_PATTERNS` (`src/processors.py` lines 8-15), alternations
split into keyword lists (`experiments?`/`results?` kept as their
mandatory stems). -/
def SECTION_PATTERNS : List (String × List String) :=
  [("abstract", ["abstract"]),
   ("introduction", ["introduction"]),
   ("related_work", ["related work", "literature review"]),
   ("methodology", ["methodology", "method", "proposed approach", "approach"]),
   ("experiments", ["experiment", "result", "evaluation"]),
   ("conclusion", ["conclusion", "discussion"])]

/-- Stable insertion into a position-sorted list: a new element goes
after all existing elements with a key `≤` its own, so sorting with it
is stable, like Python's `list.sort(key=lambda x: x[0])`. -/
def insertByPos (x : ℕ × String) : List (ℕ × String) → List (ℕ × String)
  | [] => [x]
  | y :: t => if y.1 ≤ x.1 then y :: insertByPos x t else x :: y :: t

/-- Stable sort by position (Python `section_positions.sort(key=...)`). -/
def sortByPos (l : List (ℕ × String)) : List (ℕ × String) :=
  l.foldl (fun acc x => insertByPos x acc) []

/-- The section-building loop of `extract_paper_structure_from_docs`
(lines 47-63): slice from each position to the next, strip, drop junk
under 50 words, store under the section name (dict assignment). -/
def buildSections (full_text : String) :
    List (ℕ × String) → List (String × PaperSection) →
      List (String × PaperSection)
  | [], sections => sections
  | (start_pos, name) :: rest, sections =>
    let end_pos := match rest with
      | (p, _) :: _ => p
      | [] => full_text.length
    let content := pyStrip (strTake (strDrop full_text start_pos) (end_pos - start_pos))
    if (pyWords content).length < 50 then buildSections full_text rest sections
    else
      buildSections full_text rest
        (dictInsert sections name
          { content := content, word_count := (pyWords content).length })

/-- `extract_title` (`src/processors.py` lines 80-103). -/
def extract_title (docs : List String) : String :=
  match docs with
  | [] => "Untitled Research Paper"
  | first_page :: _ =>
    let lines := ((splitChar '\n' first_page).map pyStrip).filter
      fun l => 10 < l.length ∧ l.length < 150
    let bad := ["abstract", "introduction", "copyright", "permission",
      "license"]
    match (lines.take 10).find? (fun line =>
        ¬ bad.any fun b => strHas (pyLower line) b) with
    | some line => line
    | none => "Untitled Research Paper"

/-- `extract_paper_structure_from_docs` (`src/processors.py`
lines 29-74): join pages, locate section headings case-insensitively,
build sections, and fall back to a single `full_text` section when
nothing was detected. Each doc is represented by its `page_content`. -/
def extract_paper_structure_from_docs (docs : List String) : PaperStructure :=
  let full_text := joinWith "\n" docs
  let lowered := pyLower full_text
  let section_positions := SECTION_PATTERNS.flatMap fun pat =>
    pat.2.flatMap fun kw => (occStarts lowered kw).map fun i => (i, pat.1)
  let sorted := sortByPos section_positions
  let sections := buildSections full_text sorted []
  let sections :=
    if sections.isEmpty then
      [("full_text",
        { content := strTake full_text 12000
          word_count := (pyWords full_text).length })]
    else sections
  { title := extract_title docs, sections := sections }

/-! ## Pipeline agents (`src/graph.py`) -/

/-- Result of the parse stage stored into the shared state by agent 1
(`src/graph.py` lines 51-64); the loader output `raw_documents` is this
function's input (external collaborator). -/
structure Agent1Result where
  raw_documents : List String
  user_paper_struct : PaperStructure
  current_step : String
  progress : ℕ
deriving Repr, DecidableEq

/-- Agent 1, the document parsing stage (`src/graph.py` lines 51-64):
store the loader output and the extracted structure, then advance the
state. No emptiness check of any kind is performed. -/
def agent1_document_parse_stage (raw_documents : List String) : Agent1Result :=
  { raw_documents := raw_documents
    user_paper_struct := extract_paper_structure_from_docs raw_documents
    current_step := "research_search"
    progress := 20 }

/-- Python call semantics for
`matcher.cross_similarity_analysis(<kw>=v)`: the argument binds only if
the keyword equals the declared parameter name `similarity_threshold`;
otherwise the call raises `TypeError` before the body runs. -/
def callCrossSimilarity (kw : String) (v : ℚ)
    (m : AdvancedSemanticMatcher) :
    Except String (List (String × List MatchRec)) :=
  if kw = "similarity_threshold" then cross_similarity_analysis m v
  else
    .error ("TypeError: cross_similarity_analysis() got an unexpected " ++
      "keyword argument " ++ kw)

/-- Dict lookup `d.get(k, default)` on an association list. -/
def dictGet {α : Type} (d : List (String × α)) (k : String) : Option α :=
  match d with
  | [] => none
  | (k', v) :: rest => if k' = k then some v else dictGet rest k

/-- The candidate loop of `agent4_similarity_matching` (`src/graph.py`
lines 124-128): embed each candidate's concepts, then call
`matcher.cross_similarity_analysis(threshold=0.7)` — with the keyword
`threshold`, as written at line 127 — and store
`matches.get(paper_url, [])`. -/
def agent4Loop (fromTexts : List String → FaissStore) :
    AdvancedSemanticMatcher → List (String × List Concept) →
      List (String × List MatchRec) →
      Except String (AdvancedSemanticMatcher × List (String × List MatchRec))
  | m, [], acc => .ok (m, acc)
  | m, (paper_url, concepts) :: rest, acc =>
    let m' := embed_concepts fromTexts m concepts paper_url
    match callCrossSimilarity "threshold" (7/10) m' with
    | .error e => .error e
    | .ok ms =>
      agent4Loop fromTexts m' rest
        (dictInsert acc paper_url ((dictGet ms paper_url).getD []))

/-- `agent4_similarity_matching` (`src/graph.py` lines 113-133): build
a fresh matcher, embed the user concepts under `"user"`, then run the
candidate loop; returns the `matches_by_paper` mapping on success. -/
def agent4_similarity_matching (fromTexts : List String → FaissStore)
    (user_concepts : List Concept)
    (internet_concepts : List (String × List Concept)) :
    Except String (List (String × List MatchRec)) :=
  let matcher := embed_concepts fromTexts {} user_concepts "user"
  match agent4Loop fromTexts matcher internet_concepts [] with
  | .error e => .error e
  | .ok r => .ok r.2

/-- The scores dict after the `None` fallbacks of
`agent5_risk_scoring_report` (`src/graph.py` lines 150-155): a missing
(`None`) `novelty_score` or `overall_overlap_pct` is replaced by `0.0`. -/
structure FinalScores where
  overall_overlap_pct : ℚ
  novelty_score : ℚ
  risk_assessment : String
  total_papers_analyzed : ℕ
  paper_breakdown : List (String × PaperScore)
deriving Repr, DecidableEq

/-- Scoring portion of `agent5_risk_scoring_report` (`src/graph.py`
lines 140-155). -/
def agent5_scores (matches_by_paper : List (String × List MatchRec)) :
    FinalScores :=
  let scores := compute_aggregate_scores matches_by_paper
  { overall_overlap_pct := scores.overall_overlap_pct.getD 0
    novelty_score := scores.novelty_score.getD 0
    risk_assessment := scores.risk_assessment
    total_papers_analyzed := scores.total_papers_analyzed
    paper_breakdown := scores.paper_breakdown }

/-- The report fields of `state["final_result"]` relevant to the claims
(`src/graph.py` lines 222-239), plus the `analysis_scores` artifact the
report's overlap figure is drawn from. Free-text fields and the
externally generated recommendation strings are elided; whether the
fixed advisory text is substituted (lines 211-215) is recorded as a
flag. -/
structure AnalysisReport where
  total_internet_papers_analyzed : ℕ
  overall_plagiarism_risk : String
  novelty_score : ℚ
  explainability : Explainability
  used_fixed_advisory : Bool
  analysis_scores : FinalScores
deriving Repr, DecidableEq

/-- Report-building portion of `agent5_risk_scoring_report`
(`src/graph.py` lines 135-252), taking the match stage's output and the
searched papers count. -/
def agent5_risk_scoring_report (similar_papers_count : ℕ)
    (matches_by_paper : List (String × List MatchRec)) : AnalysisReport :=
  let scores := agent5_scores matches_by_paper
  let explain_data :=
    format_explainability ((matches_by_paper.map fun p => p.2).flatten)
  { total_internet_papers_analyzed := similar_papers_count
    overall_plagiarism_risk := scores.risk_assessment
    novelty_score := scores.novelty_score
    explainability := explain_data
    used_fixed_advisory := matches_by_paper.isEmpty
    analysis_scores := scores }

/-! ## Concrete instances used to evaluate the definitions -/

/-- A trivial stand-in for `FAISS.from_texts`: stores the texts, finds
nothing. -/
def exFromTexts : List String → FaissStore := fun ts =>
  { texts := ts, search := fun _ _ => [] }

/-- A match record with the given similarity and section tag. -/
def mkMatch (s : ℚ) (sec : String) : MatchRec :=
  { user_concept := "transformer attention | scaled dot product | section:m | type:technique"
    matched_concept := "multi-head attention | scaled dot product | section:m | type:technique"
    similarity_score := s
    sectionTag := sec
    match_strength := "STRONG" }

/-- A candidate store answering every query with distance `0.2496`,
so the derived similarity is exactly `0.7504`. -/
def exRoundStore : FaissStore :=
  { texts := ["b"], search := fun _ _ => [("x", 312/1250)] }

/-- A matcher over `exRoundStore`. -/
def exMatcherRound : AdvancedSemanticMatcher :=
  { user_store := some { texts := ["a"], search := fun _ _ => [] }
    internet_stores := [("p", exRoundStore)] }

/-- Eleven source concept texts. -/
def exManyUserTexts : List String :=
  ["b0", "b1", "b2", "b3", "b4", "b5", "b6", "b7", "b8", "b9", "zz"]

/-- A candidate store answering the query `"zz"` with distance `0.01`
(similarity `0.99`) and every other query with distance `0.2`
(similarity `0.8`). -/
def exManyStore : FaissStore :=
  { texts := []
    search := fun t _ => if t = "zz" then [("m", 1/100)] else [("m", 1/5)] }

/-- A matcher with eleven source concepts over `exManyStore`, so that
eleven results qualify at threshold `0.75` and the highest-similarity
one comes last. -/
def exMatcherMany : AdvancedSemanticMatcher :=
  { user_store := some { texts := exManyUserTexts, search := fun _ _ => [] }
    internet_stores := [("p", exManyStore)] }

/-- The match record `exMatcherMany` produces for source text `s`
(similarity `0.8`). -/
def exCap (s : String) : MatchRec :=
  { user_concept := s
    matched_concept := "m"
    similarity_score := 4/5
    sectionTag := "other"
    match_strength := "MEDIUM" }

/-- The match record `exMatcherMany` produces for source text `"zz"`
(similarity `0.99`), eleventh and strongest in iteration order. -/
def exTop : MatchRec :=
  { user_concept := "zz"
    matched_concept := "m"
    similarity_score := 99/100
    sectionTag := "other"
    match_strength := "STRONG" }

/-- A candidate store answering every query with distance `0.2`,
i.e. similarity exactly `0.8`. -/
def exHitStore : FaissStore :=
  { texts := ["b"], search := fun _ _ => [("x", 1/5)] }

/-- A matcher over `exHitStore`. -/
def exMatcherHit : AdvancedSemanticMatcher :=
  { user_store := some { texts := ["a"], search := fun _ _ => [] }
    internet_stores := [("p", exHitStore)] }

/-- The match record `exMatcherHit` produces at threshold `0.75`. -/
def exHitMatch : MatchRec :=
  { user_concept := "a"
    matched_concept := "x"
    similarity_score := 4/5
    sectionTag := "other"
    match_strength := "MEDIUM" }

/-- The match record `exMatcherRound` produces at threshold `0.7504`:
its stored score is the rounded `0.75`. -/
def exRoundMatch : MatchRec :=
  { user_concept := "a"
    matched_concept := "x"
    similarity_score := 3/4
    sectionTag := "other"
    match_strength := "MEDIUM" }

/-- A matcher whose single candidate store only answers with distance
`5`, i.e. similarity `0`, below every reasonable threshold. -/
def exMatcherNone : AdvancedSemanticMatcher :=
  { user_store := some { texts := ["a"], search := fun _ _ => [] }
    internet_stores :=
      [("p", { texts := ["w"], search := fun _ _ => [("x", 5)] })] }

/-- Two candidates whose single matches have weighted-mean
similarities `0.95` and `0.72` (the spec's aggregation scenario). -/
def exTwoCands : List (String × List MatchRec) :=
  [("a", [mkMatch (95/100) "other"]), ("b", [mkMatch (72/100) "other"])]

/-- Two distinct matches with identical source concept text (hence
identical truncated phrases) but different similarities. -/
def exDupMatches : List MatchRec :=
  [mkMatch (9/10) "other", mkMatch (8/10) "other"]

/-- A concrete extracted concept. -/
def exConcept : Concept :=
  { name := "attention mechanism"
    type := "technique"
    description := "self attention over token sequences"
    sectionName := "methodology"
    confidence := 85/100 }

/-! ## Rounding lemmas -/

theorem rhe_intCast (n : ℤ) : rhe (n : ℚ) = n := by
  unfold rhe
  rw [Int.fract_intCast, Int.floor_intCast]
  norm_num

theorem floor_le_rhe (x : ℚ) : ⌊x⌋ ≤ rhe x := by
  unfold rhe
  split_ifs <;> omega

theorem rhe_le_floor_add_one (x : ℚ) : rhe x ≤ ⌊x⌋ + 1 := by
  unfold rhe
  split_ifs <;> omega

theorem rhe_mono {x y : ℚ} (h : x ≤ y) : rhe x ≤ rhe y := by
  rcases lt_or_le ⌊x⌋ ⌊y⌋ with hf | hf
  · calc rhe x ≤ ⌊x⌋ + 1 := rhe_le_floor_add_one x
      _ ≤ ⌊y⌋ := hf
      _ ≤ rhe y := floor_le_rhe y
  · have hf' : ⌊x⌋ = ⌊y⌋ := le_antisymm (Int.floor_le_floor h) hf
    have hfr : Int.fract x ≤ Int.fract y := by
      unfold Int.fract
      rw [hf']
      exact sub_le_sub_right h _
    unfold rhe
    rw [hf']
    split_ifs <;> first | omega | (exfalso; linarith)

theorem int_le_rhe {n : ℤ} {x : ℚ} (h : (n : ℚ) ≤ x) : n ≤ rhe x :=
  le_trans (Int.le_floor.mpr h) (floor_le_rhe x)

theorem rhe_le_int {n : ℤ} {x : ℚ} (h : x ≤ (n : ℚ)) : rhe x ≤ n := by
  rcases eq_or_lt_of_le h with heq | hlt
  · rw [heq, rhe_intCast]
  · have : ⌊x⌋ < n := Int.floor_lt.mpr hlt
    have := rhe_le_floor_add_one x
    omega

theorem rhe_even_sub {n : ℤ} (hn : n % 2 = 0) (x : ℚ) :
    rhe ((n : ℚ) - x) = n - rhe x := by
  by_cases h0 : Int.fract x = 0
  · have hx : x = (⌊x⌋ : ℚ) := by
      have hd : Int.fract x = x - ⌊x⌋ := rfl
      rw [hd] at h0
      linarith
    rw [hx, show (n : ℚ) - (⌊x⌋ : ℚ) = ((n - ⌊x⌋ : ℤ) : ℚ) by push_cast; ring,
      rhe_intCast, rhe_intCast]
  · have hfr : Int.fract ((n : ℚ) - x) = 1 - Int.fract x := by
      rw [sub_eq_add_neg, Int.fract_int_add, Int.fract_neg h0]
    have hfl : ⌊(n : ℚ) - x⌋ = n - ⌊x⌋ - 1 := by
      have h1 : ((⌊(n : ℚ) - x⌋ : ℤ) : ℚ) = ((n : ℚ) - x) - Int.fract ((n : ℚ) - x) := by
        rw [Int.self_sub_fract]
      have h2 : Int.fract x = x - ⌊x⌋ := rfl
      rw [hfr, h2] at h1
      have : ((⌊(n : ℚ) - x⌋ : ℤ) : ℚ) = ((n - ⌊x⌋ - 1 : ℤ) : ℚ) := by
        rw [h1]; push_cast; ring
      exact_mod_cast this
    have hr0 : 0 ≤ Int.fract x := Int.fract_nonneg x
    have hr1 : Int.fract x < 1 := Int.fract_lt_one x
    unfold rhe
    rw [hfl, hfr]
    split_ifs <;> first | omega | (exfalso; linarith)

theorem pyRound_intCast (k : ℕ) (n : ℤ) : pyRound k (n : ℚ) = n := by
  unfold pyRound
  rw [show ((n : ℚ) * (10 : ℚ) ^ k) = ((n * 10 ^ k : ℤ) : ℚ) by push_cast; ring,
    rhe_intCast]
  push_cast
  field_simp

theorem pyRound_mono (k : ℕ) {x y : ℚ} (h : x ≤ y) :
    pyRound k x ≤ pyRound k y := by
  unfold pyRound
  have hp : (0 : ℚ) < (10 : ℚ) ^ k := by positivity
  have hr : x * (10 : ℚ) ^ k ≤ y * (10 : ℚ) ^ k :=
    mul_le_mul_of_nonneg_right h (le_of_lt hp)
  gcongr
  exact_mod_cast rhe_mono hr

theorem int_le_pyRound (k : ℕ) {n : ℤ} {x : ℚ} (h : (n : ℚ) ≤ x) :
    (n : ℚ) ≤ pyRound k x := by
  unfold pyRound
  have hp : (0 : ℚ) < (10 : ℚ) ^ k := by positivity
  rw [le_div_iff₀ hp]
  have h1 : ((n * 10 ^ k : ℤ) : ℚ) ≤ x * (10 : ℚ) ^ k := by
    push_cast
    exact mul_le_mul_of_nonneg_right h (le_of_lt hp)
  have h2 := int_le_rhe h1
  exact_mod_cast h2

theorem pyRound_le_int (k : ℕ) {n : ℤ} {x : ℚ} (h : x ≤ (n : ℚ)) :
    pyRound k x ≤ (n : ℚ) := by
  unfold pyRound
  have hp : (0 : ℚ) < (10 : ℚ) ^ k := by positivity
  rw [div_le_iff₀ hp]
  have h1 : x * (10 : ℚ) ^ k ≤ ((n * 10 ^ k : ℤ) : ℚ) := by
    push_cast
    exact mul_le_mul_of_nonneg_right h (le_of_lt hp)
  have h2 := rhe_le_int h1
  exact_mod_cast h2

theorem pyRound_nonneg (k : ℕ) {x : ℚ} (h : 0 ≤ x) : 0 ≤ pyRound k x := by
  have := int_le_pyRound k (n := 0) (x := x) (by exact_mod_cast h)
  exact_mod_cast this

theorem pyRound_hundred_sub (x : ℚ) :
    pyRound 1 (100 - x) = 100 - pyRound 1 x := by
  unfold pyRound
  have h1 : (100 - x) * (10 : ℚ) ^ 1 = ((1000 : ℤ) : ℚ) - x * (10 : ℚ) ^ 1 := by
    push_cast
    ring
  rw [h1, rhe_even_sub (by norm_num) (x * (10 : ℚ) ^ 1)]
  push_cast
  ring

/-! ## Dict and list lemmas -/

theorem dictInsert_of_fresh {α : Type} (d : List (String × α)) (k : String)
    (v : α) (h : ∀ p ∈ d, p.1 ≠ k) : dictInsert d k v = d ++ [(k, v)] := by
  induction d with
  | nil => rfl
  | cons hd tl ih =>
    obtain ⟨k', v'⟩ := hd
    unfold dictInsert
    rw [if_neg (h (k', v') (List.mem_cons_self _ _))]
    rw [ih fun p hp => h p (List.mem_cons_of_mem _ hp)]
    rfl

theorem listMean_nonneg {l : List ℚ} (h : ∀ x ∈ l, 0 ≤ x) :
    0 ≤ listMean l := by
  unfold listMean
  apply div_nonneg (List.sum_nonneg h)
  exact_mod_cast Nat.zero_le l.length

/-! ## Claim C7 -/

/-- C7 (as amended): building an embedding index from an empty concept
sequence is a silent no-op — `embed_concepts` returns immediately,
raising nothing, constructing no index and leaving the matcher's stores
untouched. -/
theorem C7_embed_empty_noop (fromTexts : List String → FaissStore)
    (m : AdvancedSemanticMatcher) (identifier : String) :
    embed_concepts fromTexts m [] identifier = m := rfl

/-- C7 counterexample: the claim says an empty sequence "fails with
EmptyInputError ... rather than silently doing nothing"; evaluated at
the empty sequence, `embed_concepts` returns normally with the matcher
unchanged — in particular under `"user"` no user store is created. -/
theorem C7_counterexample :
    embed_concepts exFromTexts {} [] "user" = ({} : AdvancedSemanticMatcher) ∧
      (embed_concepts exFromTexts {} [] "user").user_store = none ∧
      (embed_concepts exFromTexts {} [] "candidate-1").internet_stores = [] :=
  ⟨rfl, rfl, rfl⟩

/-! ## Claim C9 -/

/-- C9 (as amended): the parse stage never aborts on zero pages or
undetected sections: the extracted `PaperStructure` always contains at
least one section (a `full_text` fallback is inserted when nothing was
detected), and `agent1_document_parse_stage` stores it and advances the
pipeline unconditionally. -/
theorem C9_parse_never_fails (docs : List String) :
    (agent1_document_parse_stage docs).user_paper_struct.sections ≠ [] ∧
      (agent1_document_parse_stage docs).current_step = "research_search" := by
  refine ⟨?_, rfl⟩
  show (extract_paper_structure_from_docs docs).sections ≠ []
  unfold extract_paper_structure_from_docs
  simp only
  split
  · simp
  · next h => simpa [List.isEmpty_iff] using h

/-- C9 counterexample: on zero loader pages the claim demands a fatal
abort; instead the parse stage hands later stages a `PaperStructure`
with the single fallback section `full_text` (empty content, zero
words). -/
theorem C9_counterexample :
    agent1_document_parse_stage [] =
      { raw_documents := []
        user_paper_struct :=
          { title := "Untitled Research Paper"
            sections := [("full_text", { content := "", word_count := 0 })] }
        current_step := "research_search"
        progress := 20 } := by
  decide

/-! ## Claim C2 -/

/-- C2: whenever the match stage runs with at least one candidate, it
raises `TypeError` — `agent4_similarity_matching` calls
`cross_similarity_analysis(threshold=0.7)` (graph.py line 127) but the
method's only keyword parameter is named `similarity_threshold`
(similarity.py line 41), so the very first candidate iteration fails
and no match list is ever stored. -/
theorem C2_match_stage_raises (fromTexts : List String → FaissStore)
    (user_concepts : List Concept)
    (internet_concepts : List (String × List Concept))
    (h : internet_concepts ≠ []) :
    agent4_similarity_matching fromTexts user_concepts internet_concepts =
      .error ("TypeError: cross_similarity_analysis() got an unexpected " ++
        "keyword argument threshold") := by
  match internet_concepts, h with
  | (url, cs) :: rest, _ => rfl

/-- C2 witness: a concrete run that reaches the match stage with a
built user index and one candidate with embedded concepts raises. -/
theorem C2_witness :
    agent4_similarity_matching exFromTexts [exConcept]
        [("https://arxiv.org/abs/1", [exConcept])] =
      .error ("TypeError: cross_similarity_analysis() got an unexpected " ++
        "keyword argument threshold") :=
  C2_match_stage_raises exFromTexts [exConcept]
    [("https://arxiv.org/abs/1", [exConcept])] (by simp)

/-! ## Claim C10 -/

/-- C10: with a built user store, `cross_similarity_analysis` succeeds
and returns one entry per previously embedded candidate store, keyed in
insertion order (candidates whose results all fell below the threshold
are present with `[]`, not omitted); and embedding concepts under a
fresh non-user identifier appends that identifier at the end of the
store order. -/
theorem C10_result_keys :
    (∀ (m : AdvancedSemanticMatcher) (t : ℚ) (us : FaissStore),
      m.user_store = some us →
      ∃ r, cross_similarity_analysis m t = .ok r ∧
        r.map Prod.fst = m.internet_stores.map Prod.fst) ∧
    (∀ (fromTexts : List String → FaissStore)
      (m : AdvancedSemanticMatcher) (cs : List Concept) (ident : String),
      cs ≠ [] → ident ≠ "user" →
      (∀ p ∈ m.internet_stores, p.1 ≠ ident) →
      (embed_concepts fromTexts m cs ident).internet_stores.map Prod.fst =
        m.internet_stores.map Prod.fst ++ [ident]) := by
  constructor
  · intro m t us h
    refine ⟨_, by unfold cross_similarity_analysis; rw [h], ?_⟩
    rw [List.map_map]
    rfl
  · intro fromTexts m cs ident hcs hid hfresh
    unfold embed_concepts
    rw [if_neg (by simpa [List.isEmpty_iff] using hcs), if_neg hid]
    show (dictInsert m.internet_stores ident _).map Prod.fst = _
    rw [dictInsert_of_fresh _ _ _ hfresh, List.map_append]
    rfl

/-- C10 witness: a candidate store with no qualifying result appears in
the mapping with key `"p"` (carrying `[]`), and embedding under a fresh
identifier `"q"` appends it to the key order. -/
theorem C10_witness :
    (∃ r, cross_similarity_analysis exMatcherNone (3/4) = .ok r ∧
      r.map Prod.fst = ["p"]) ∧
      (embed_concepts exFromTexts {} [exConcept] "q").internet_stores.map
        Prod.fst = ["q"] := by
  constructor
  · obtain ⟨r, h1, h2⟩ := C10_result_keys.1 exMatcherNone (3/4) _ rfl
    exact ⟨r, h1, by rw [h2]; rfl⟩
  · have h := C10_result_keys.2 exFromTexts {} [exConcept] "q"
      (by simp) (by decide) (by simp)
    simpa using h

/-! ## Evaluation lemmas for concrete matcher runs -/

theorem matchOfResult_keep {d : String} {t dist : ℚ} (mc : String)
    (h : ¬ max 0 (1 - dist) < t) :
    matchOfResult d t (mc, dist) = some
      { user_concept := d
        matched_concept := mc
        similarity_score := pyRound 3 (max 0 (1 - dist))
        sectionTag :=
          if strHas (pyLower d) "method" || strHas (pyLower d) "algorithm"
          then "methodology" else "other"
        match_strength :=
          if 85/100 < max 0 (1 - dist) then "STRONG"
          else if 3/4 < max 0 (1 - dist) then "MEDIUM"
          else "WEAK" } := by
  unfold matchOfResult
  dsimp only
  rw [if_neg h]

theorem matchOfResult_cap (sx : String)
    (h1 : strHas (pyLower sx) "method" = false)
    (h2 : strHas (pyLower sx) "algorithm" = false) :
    matchOfResult sx (3/4) ("m", 1/5) = some (exCap sx) := by
  rw [matchOfResult_keep "m" (by norm_num [max_def])]
  norm_num [max_def, pyRound, rhe, Int.fract, exCap, h1, h2]

theorem matchOfResult_top :
    matchOfResult "zz" (3/4) ("m", 1/100) = some exTop := by
  rw [matchOfResult_keep "m" (by norm_num [max_def])]
  norm_num [max_def, pyRound, rhe, Int.fract, exTop,
    show strHas (pyLower "zz") "method" = false from rfl,
    show strHas (pyLower "zz") "algorithm" = false from rfl]

theorem matchOfResult_hit :
    matchOfResult "a" (3/4) ("x", 1/5) = some exHitMatch := by
  rw [matchOfResult_keep "x" (by norm_num [max_def])]
  norm_num [max_def, pyRound, rhe, Int.fract, exHitMatch,
    show strHas (pyLower "a") "method" = false from rfl,
    show strHas (pyLower "a") "algorithm" = false from rfl]

theorem matchOfResult_round :
    matchOfResult "a" (1876/2500) ("x", 312/1250) = some exRoundMatch := by
  rw [matchOfResult_keep "x" (by norm_num [max_def])]
  norm_num [max_def, pyRound, rhe, Int.fract, exRoundMatch,
    show strHas (pyLower "a") "method" = false from rfl,
    show strHas (pyLower "a") "algorithm" = false from rfl]

theorem cross_exMatcherHit :
    cross_similarity_analysis exMatcherHit (3/4) =
      .ok [("p", [exHitMatch])] := by
  simp only [cross_similarity_analysis, exMatcherHit, List.map_cons,
    List.map_nil, paperMatches, List.flatMap_cons, List.flatMap_nil,
    show exHitStore.search "a" 8 = [("x", 1/5)] from rfl,
    List.filterMap_cons, List.filterMap_nil, matchOfResult_hit,
    List.append_nil, List.take_succ_cons, List.take_nil]

theorem cross_exMatcherRound :
    cross_similarity_analysis exMatcherRound (1876/2500) =
      .ok [("p", [exRoundMatch])] := by
  simp only [cross_similarity_analysis, exMatcherRound, List.map_cons,
    List.map_nil, paperMatches, List.flatMap_cons, List.flatMap_nil,
    show exRoundStore.search "a" 8 = [("x", 312/1250)] from rfl,
    List.filterMap_cons, List.filterMap_nil, matchOfResult_round,
    List.append_nil, List.take_succ_cons, List.take_nil]

theorem paperMatches_many :
    paperMatches exManyUserTexts exManyStore (3/4) =
      [exCap "b0", exCap "b1", exCap "b2", exCap "b3", exCap "b4",
        exCap "b5", exCap "b6", exCap "b7", exCap "b8", exCap "b9",
        exTop] := by
  simp only [paperMatches, exManyUserTexts, List.flatMap_cons,
    List.flatMap_nil,
    show exManyStore.search "b0" 8 = [("m", 1/5)] from rfl,
    show exManyStore.search "b1" 8 = [("m", 1/5)] from rfl,
    show exManyStore.search "b2" 8 = [("m", 1/5)] from rfl,
    show exManyStore.search "b3" 8 = [("m", 1/5)] from rfl,
    show exManyStore.search "b4" 8 = [("m", 1/5)] from rfl,
    show exManyStore.search "b5" 8 = [("m", 1/5)] from rfl,
    show exManyStore.search "b6" 8 = [("m", 1/5)] from rfl,
    show exManyStore.search "b7" 8 = [("m", 1/5)] from rfl,
    show exManyStore.search "b8" 8 = [("m", 1/5)] from rfl,
    show exManyStore.search "b9" 8 = [("m", 1/5)] from rfl,
    show exManyStore.search "zz" 8 = [("m", 1/100)] from rfl,
    List.filterMap_cons, List.filterMap_nil,
    matchOfResult_cap "b0" rfl rfl, matchOfResult_cap "b1" rfl rfl,
    matchOfResult_cap "b2" rfl rfl, matchOfResult_cap "b3" rfl rfl,
    matchOfResult_cap "b4" rfl rfl, matchOfResult_cap "b5" rfl rfl,
    matchOfResult_cap "b6" rfl rfl, matchOfResult_cap "b7" rfl rfl,
    matchOfResult_cap "b8" rfl rfl, matchOfResult_cap "b9" rfl rfl,
    matchOfResult_top, List.append_nil, List.cons_append,
    List.nil_append]

/-! ## Claim C5 -/

/-- Deconstruction of membership in the uncapped qualifying match
list: every member arises from a store result whose derived similarity
cleared the threshold, and carries that similarity rounded to three
decimals. -/
theorem mem_paperMatches {userDocs : List String} {store : FaissStore}
    {t : ℚ} {mm : MatchRec} (h : mm ∈ paperMatches userDocs store t) :
    ∃ d : ℚ, ¬ max 0 (1 - d) < t ∧
      mm.similarity_score = pyRound 3 (max 0 (1 - d)) := by
  unfold paperMatches at h
  rw [List.mem_flatMap] at h
  obtain ⟨doc, _, h⟩ := h
  rw [List.mem_filterMap] at h
  obtain ⟨dd, _, hf⟩ := h
  unfold matchOfResult at hf
  dsimp only at hf
  split at hf
  · exact absurd hf (by simp)
  · next hcond =>
    refine ⟨dd.2, hcond, ?_⟩
    rw [← Option.some_inj.mp hf]

/-- C5 (as amended): every result below the threshold is discarded, so
each returned match's pre-rounding similarity is `≥ t`; the stored
`similarity_score` is that value rounded to three decimals, hence
`similarity_score ≥ t` holds whenever `1000·t` is an integer (in
particular at the default `0.75`), though for other thresholds the
rounding may undershoot `t` by less than `1/2000`. -/
theorem C5_threshold_respected (m : AdvancedSemanticMatcher) (t : ℚ)
    (r : List (String × List MatchRec))
    (h : cross_similarity_analysis m t = .ok r)
    (q : ℤ) (hq : (q : ℚ) / 1000 = t) :
    ∀ p ∈ r, ∀ mm ∈ p.2, t ≤ mm.similarity_score := by
  intro p hp mm hmm
  cases hus : m.user_store with
  | none => rw [cross_similarity_analysis, hus] at h; exact absurd h (by simp)
  | some us =>
    rw [cross_similarity_analysis, hus] at h
    rw [Except.ok.injEq] at h
    subst h
    rw [List.mem_map] at hp
    obtain ⟨ps, _, hps⟩ := hp
    subst hps
    have hm : mm ∈ paperMatches us.texts ps.2 t := List.mem_of_mem_take hmm
    obtain ⟨d, hcond, hsc⟩ := mem_paperMatches hm
    have hts : t ≤ max 0 (1 - d) := le_of_not_lt hcond
    rw [hsc]
    unfold pyRound
    have h1000 : ((10 : ℚ) ^ 3) = ((1000 : ℤ) : ℚ) := by norm_num
    rw [h1000]
    rw [le_div_iff₀ (by norm_num)]
    have hq' : (q : ℚ) ≤ max 0 (1 - d) * ((1000 : ℤ) : ℚ) := by
      have : t * 1000 ≤ max 0 (1 - d) * 1000 := by
        exact mul_le_mul_of_nonneg_right hts (by norm_num)
      rw [← hq] at this
      push_cast at this ⊢
      linarith
    have := int_le_rhe hq'
    have hcast : (q : ℚ) ≤ ((rhe (max 0 (1 - d) * ((1000 : ℤ) : ℚ)) : ℤ) : ℚ) := by
      exact_mod_cast this
    calc t * ((1000 : ℤ) : ℚ) = (q : ℚ) := by rw [← hq]; push_cast; ring
      _ ≤ _ := hcast

/-- C5 witness: at the default threshold `0.75` the single returned
match of a concrete run satisfies `similarity_score ≥ 0.75`. -/
theorem C5_witness : (3/4 : ℚ) ≤ exHitMatch.similarity_score :=
  C5_threshold_respected exMatcherHit (3/4) _ cross_exMatcherHit
    750 (by norm_num) ("p", [exHitMatch]) (by simp) exHitMatch (by simp)

/-- C5 counterexample: at threshold `t = 0.7504` a result with derived
similarity exactly `0.7504` qualifies, but its stored
`similarity_score` is `round(0.7504, 3) = 0.75 < t` — refuting
"every match returned has `similarity_score ≥ t`" for arbitrary `t`. -/
theorem C5_counterexample :
    cross_similarity_analysis exMatcherRound (1876/2500) =
      .ok [("p", [exRoundMatch])] ∧
      exRoundMatch.similarity_score < 1876/2500 := by
  exact ⟨cross_exMatcherRound, by norm_num [exRoundMatch]⟩

/-! ## Claim C6 -/

/-- C6 (as amended): under a built user store every candidate's
returned match list has at most 10 entries, and those entries are the
first 10 qualifying matches in iteration order (source concepts outer,
store results inner) — not necessarily the highest-similarity ones. -/
theorem C6_cap_at_ten (m : AdvancedSemanticMatcher) (t : ℚ)
    (us : FaissStore) (h : m.user_store = some us)
    (r : List (String × List MatchRec))
    (hr : cross_similarity_analysis m t = .ok r) :
    ∀ p ∈ r, p.2.length ≤ 10 ∧
      ∃ s ∈ m.internet_stores, s.1 = p.1 ∧
        p.2 = (paperMatches us.texts s.2 t).take 10 := by
  rw [cross_similarity_analysis, h, Except.ok.injEq] at hr
  subst hr
  intro p hp
  rw [List.mem_map] at hp
  obtain ⟨ps, hps, hpe⟩ := hp
  subst hpe
  exact ⟨List.length_take_le 10 _, ps, hps, rfl, rfl⟩

/-- C6 witness: a concrete run returns per-candidate lists of at most
10 matches. -/
theorem C6_witness :
    ∃ r, cross_similarity_analysis exMatcherMany (3/4) = .ok r ∧
      ∀ p ∈ r, p.2.length ≤ 10 := by
  refine ⟨_, rfl, fun p hp => ?_⟩
  exact (C6_cap_at_ten exMatcherMany (3/4) _ rfl _ rfl p hp).1

/-- C6 counterexample: with eleven qualifying matches whose
highest-similarity one (`0.99`) comes last in iteration order, the
returned list keeps the first ten (all `0.8`) and drops the `0.99`
match — refuting "the entries are the highest-similarity qualifying
matches". -/
theorem C6_counterexample :
    cross_similarity_analysis exMatcherMany (3/4) =
      .ok [("p", (paperMatches exManyUserTexts exManyStore (3/4)).take 10)] ∧
      ((paperMatches exManyUserTexts exManyStore (3/4)).take 10).length = 10 ∧
      ∃ q ∈ paperMatches exManyUserTexts exManyStore (3/4),
        ∀ mm ∈ (paperMatches exManyUserTexts exManyStore (3/4)).take 10,
          mm.similarity_score < q.similarity_score := by
  have hpm := paperMatches_many
  refine ⟨rfl, ?_, exTop, ?_, ?_⟩
  · rw [hpm]; rfl
  · rw [hpm]; simp
  · rw [hpm]
    intro mm hmm
    simp only [List.take, List.mem_cons, List.not_mem_nil, or_false] at hmm
    rcases hmm with rfl | rfl | rfl | rfl | rfl | rfl | rfl | rfl | rfl | rfl
      <;> norm_num [exCap, exTop]

/-! ## Aggregate scorer lemmas -/

theorem paperScores_eq_nil_iff (mbp : List (String × List MatchRec)) :
    paperScores mbp = [] ↔ ∀ p ∈ mbp, p.2 = [] := by
  unfold paperScores
  rw [List.map_eq_nil_iff, List.filter_eq_nil_iff]
  simp [List.isEmpty_iff]

theorem compute_sentinel (mbp : List (String × List MatchRec))
    (h : ∀ p ∈ mbp, p.2 = []) :
    compute_aggregate_scores mbp =
      { overall_overlap_pct := none
        novelty_score := none
        total_papers_analyzed := 0
        total_high_risk_matches := 0
        paper_breakdown := []
        risk_assessment := "UNKNOWN" } := by
  simp only [compute_aggregate_scores]
  rw [if_pos]
  simp [List.isEmpty_iff, (paperScores_eq_nil_iff mbp).mpr h]

theorem compute_nonsentinel (mbp : List (String × List MatchRec))
    (h : ∃ p ∈ mbp, p.2 ≠ []) :
    compute_aggregate_scores mbp =
      { overall_overlap_pct := some (pyRound 1 (overallOverlap mbp))
        novelty_score := some (pyRound 1 (max 0 (100 - overallOverlap mbp)))
        total_papers_analyzed := (paperScores mbp).length
        total_high_risk_matches :=
          ((paperScores mbp).map fun p => p.2.high_risk_matches).sum
        paper_breakdown := paperScores mbp
        risk_assessment :=
          if 60 < overallOverlap mbp then "HIGH"
          else if 30 < overallOverlap mbp then "MEDIUM"
          else "LOW" } := by
  have hne : paperScores mbp ≠ [] := by
    rw [Ne, paperScores_eq_nil_iff]
    push_neg
    exact h
  simp only [compute_aggregate_scores]
  rw [if_neg (by simpa [List.isEmpty_iff] using hne)]

/-- Rounding commutes with the novelty formula: the returned
`novelty_score = round(max(0, 100 − ov), 1)` always equals
`max(0, 100 − round(ov, 1))`, the formula phrased on the returned
(rounded) overlap. -/
theorem pyRound_novelty (ov : ℚ) :
    pyRound 1 (max 0 (100 - ov)) = max 0 (100 - pyRound 1 ov) := by
  rcases le_or_lt ov 100 with hle | hlt
  · have h1 : (0 : ℚ) ≤ 100 - ov := by linarith
    rw [max_eq_right h1, pyRound_hundred_sub]
    have h2 : pyRound 1 ov ≤ ((100 : ℤ) : ℚ) :=
      pyRound_le_int 1 (by exact_mod_cast hle)
    rw [max_eq_right (by push_cast at h2; linarith)]
  · have h1 : max 0 (100 - ov) = 0 := max_eq_left (by linarith)
    rw [h1]
    have h0 : pyRound 1 (0 : ℚ) = 0 := by
      have := pyRound_intCast 1 0
      simpa using this
    rw [h0]
    have h2 : ((100 : ℤ) : ℚ) ≤ pyRound 1 ov :=
      int_le_pyRound 1 (by exact_mod_cast hlt.le)
    rw [eq_comm]
    push_cast at h2
    exact max_eq_left (by linarith)

/-! ## Claim C3 -/

set_option maxRecDepth 2048 in
/-- C3: the Aggregate Scorer returns the `UNKNOWN` sentinel (both
numeric fields `None`) exactly when no candidate has any qualifying
match; zero-match candidates are excluded from the breakdown rather
than scored as zero; otherwise the returned overlap is the mean of the
per-candidate overlap percentages (rounded to one decimal), the
returned novelty is `max(0, 100 − overall_overlap_pct)`, and risk is
HIGH over 60, MEDIUM over 30, else LOW; the spec's two-candidate
scenario (weighted means 0.95 and 0.72) yields `83.5`, `"HIGH"`,
`16.5`. -/
theorem C3_global_aggregation :
    (∀ mbp : List (String × List MatchRec),
      ((compute_aggregate_scores mbp).overall_overlap_pct = none ∧
        (compute_aggregate_scores mbp).novelty_score = none ∧
        (compute_aggregate_scores mbp).risk_assessment = "UNKNOWN") ↔
      ∀ p ∈ mbp, p.2 = []) ∧
    (∀ mbp : List (String × List MatchRec),
      (compute_aggregate_scores mbp).paper_breakdown.map Prod.fst =
        (mbp.filter fun p => !p.2.isEmpty).map Prod.fst) ∧
    (∀ mbp : List (String × List MatchRec), (∃ p ∈ mbp, p.2 ≠ []) →
      (compute_aggregate_scores mbp).overall_overlap_pct =
        some (pyRound 1 (overallOverlap mbp)) ∧
      (compute_aggregate_scores mbp).novelty_score =
        some (max 0 (100 - pyRound 1 (overallOverlap mbp))) ∧
      (compute_aggregate_scores mbp).risk_assessment =
        (if 60 < overallOverlap mbp then "HIGH"
         else if 30 < overallOverlap mbp then "MEDIUM"
         else "LOW")) ∧
    (compute_aggregate_scores exTwoCands).overall_overlap_pct =
      some (167/2) ∧
    (compute_aggregate_scores exTwoCands).risk_assessment = "HIGH" ∧
    (compute_aggregate_scores exTwoCands).novelty_score = some (33/2) := by
  have hsc := compute_nonsentinel exTwoCands
    (by exact ⟨("a", [mkMatch (95/100) "other"]), by simp [exTwoCands], by simp⟩)
  have h95 : perPaperScore [mkMatch (95/100) "other"] = ⟨95, 1, 1, "CRITICAL"⟩ := by
    norm_num [perPaperScore, weightedScore, listMean, pyRound, rhe, Int.fract,
      mkMatch, eq_false (by decide : ("other" : String) ≠ "methodology")]
  have h72 : perPaperScore [mkMatch (72/100) "other"] = ⟨72, 0, 1, "MEDIUM"⟩ := by
    norm_num [perPaperScore, weightedScore, listMean, pyRound, rhe, Int.fract,
      mkMatch, eq_false (by decide : ("other" : String) ≠ "methodology")]
  have hps : paperScores exTwoCands = [("a", ⟨95, 1, 1, "CRITICAL"⟩),
      ("b", ⟨72, 0, 1, "MEDIUM"⟩)] := by
    simp [paperScores, exTwoCands, h95, h72]
  have hov : overallOverlap exTwoCands = 167/2 := by
    norm_num [overallOverlap, hps, listMean]
  refine ⟨?_, ?_, ?_, ?_, ?_, ?_⟩
  · intro mbp
    constructor
    · rintro ⟨h1, -, -⟩
      by_contra hc
      push_neg at hc
      rw [compute_nonsentinel mbp hc] at h1
      exact absurd h1 (by simp)
    · intro h
      rw [compute_sentinel mbp h]
      exact ⟨rfl, rfl, rfl⟩
  · intro mbp
    by_cases hc : ∀ p ∈ mbp, p.2 = []
    · rw [compute_sentinel mbp hc]
      have hf : (mbp.filter fun p => !p.2.isEmpty) = [] := by
        rw [List.filter_eq_nil_iff]
        intro p hp
        simp [List.isEmpty_iff, hc p hp]
      rw [hf]
      rfl
    · push_neg at hc
      rw [compute_nonsentinel mbp hc]
      show (paperScores mbp).map Prod.fst = _
      unfold paperScores
      rw [List.map_map]
      rfl
  · intro mbp h
    rw [compute_nonsentinel mbp h]
    exact ⟨rfl, by rw [← pyRound_novelty], rfl⟩
  · rw [hsc, hov]
    norm_num [pyRound, rhe, Int.fract]
  · rw [hsc, hov]
    norm_num
  · rw [hsc, hov]
    norm_num [pyRound, rhe, Int.fract, max_def]

/-- C3 witness: a mapping with one qualifying candidate is scored with
the non-sentinel formulas. -/
theorem C3_witness :
    (compute_aggregate_scores [("a", [mkMatch (95/100) "other"])]).overall_overlap_pct =
      some (pyRound 1 (overallOverlap [("a", [mkMatch (95/100) "other"])])) ∧
    (compute_aggregate_scores ([] : List (String × List MatchRec))).risk_assessment =
      "UNKNOWN" := by
  constructor
  · exact (C3_global_aggregation.2.2.1 _
      ⟨("a", [mkMatch (95/100) "other"]), by simp, by simp⟩).1
  · exact ((C3_global_aggregation.1 []).mpr (by simp)).2.2

/-! ## Claim C4 -/

/-- The per-candidate score record spelled out as the claim states it. -/
def claimedScore (ms : List MatchRec) : PaperScore :=
  { overlap_percentage := pyRound 1 (listMean (ms.map weightedScore) * 100)
    high_risk_matches :=
      (ms.filter fun m => 85/100 < m.similarity_score).length
    total_matches := ms.length
    risk_category :=
      if 9/10 < listMean (ms.map weightedScore) then "CRITICAL"
      else if 8/10 < listMean (ms.map weightedScore) then "HIGH"
      else if 7/10 < listMean (ms.map weightedScore) then "MEDIUM"
      else "LOW" }

set_option maxRecDepth 2048 in
/-- C4: every candidate with a nonempty match list receives a
breakdown entry whose overlap is the mean of the `×1.5`-methodology /
`×1.0`-otherwise weighted similarities, times 100, rounded to one
decimal; whose high-risk count is the number of raw similarities above
`0.85`; and whose tier is CRITICAL/HIGH/MEDIUM/LOW at weighted means
above 0.9/0.8/0.7; in the spec's scenario a single qualifying `0.88`
match gives overlap `88.0` with risk `HIGH` when untagged, and overlap
`132.0` when tagged methodology. -/
theorem C4_per_candidate_scoring :
    (∀ (mbp : List (String × List MatchRec)) (p : String × List MatchRec),
      p ∈ mbp → p.2 ≠ [] →
      (p.1, claimedScore p.2) ∈
        (compute_aggregate_scores mbp).paper_breakdown) ∧
    (∀ m : MatchRec, weightedScore m =
      m.similarity_score *
        (if m.sectionTag = "methodology" then 3/2 else 1)) ∧
    (compute_aggregate_scores [("c", [mkMatch (88/100) "other"])]).paper_breakdown =
      [("c", { overlap_percentage := 88
               high_risk_matches := 1
               total_matches := 1
               risk_category := "HIGH" })] ∧
    (compute_aggregate_scores [("c", [mkMatch (88/100) "methodology"])]).paper_breakdown =
      [("c", { overlap_percentage := 132
               high_risk_matches := 1
               total_matches := 1
               risk_category := "CRITICAL" })] := by
  refine ⟨?_, fun m => rfl, ?_, ?_⟩
  · intro mbp p hp hne
    have hmem : p ∈ mbp.filter fun q => !q.2.isEmpty :=
      List.mem_filter.mpr ⟨hp, by simp [List.isEmpty_iff, hne]⟩
    have h2 : (p.1, perPaperScore p.2) ∈ paperScores mbp := by
      unfold paperScores
      exact List.mem_map_of_mem _ hmem
    have hrec : claimedScore p.2 = perPaperScore p.2 := rfl
    rw [compute_nonsentinel mbp ⟨p, hp, hne⟩, hrec]
    exact h2
  · rw [compute_nonsentinel _ ⟨("c", [mkMatch (88/100) "other"]), by simp, by simp⟩]
    have h88 : perPaperScore [mkMatch (88/100) "other"] = ⟨88, 1, 1, "HIGH"⟩ := by
      norm_num [perPaperScore, weightedScore, listMean, pyRound, rhe, Int.fract,
        mkMatch, eq_false (by decide : ("other" : String) ≠ "methodology")]
    simp [paperScores, h88]
  · rw [compute_nonsentinel _ ⟨("c", [mkMatch (88/100) "methodology"]), by simp, by simp⟩]
    have h132 : perPaperScore [mkMatch (88/100) "methodology"] =
        ⟨132, 1, 1, "CRITICAL"⟩ := by
      norm_num [perPaperScore, weightedScore, listMean, pyRound, rhe, Int.fract,
        mkMatch]
    simp [paperScores, h132]

/-- C4 witness: a concrete candidate's breakdown entry is present as
the claimed record. -/
theorem C4_witness :
    (("c", claimedScore [mkMatch (88/100) "other"]) :
        String × PaperScore) ∈
      (compute_aggregate_scores [("c", [mkMatch (88/100) "other"])]).paper_breakdown :=
  C4_per_candidate_scoring.1 [("c", [mkMatch (88/100) "other"])]
    ("c", [mkMatch (88/100) "other"]) (by simp) (by simp)

/-! ## Claim C1 -/

theorem overallOverlap_nonneg (mbp : List (String × List MatchRec))
    (h : ∀ p ∈ mbp, ∀ mm ∈ p.2, 0 ≤ mm.similarity_score) :
    0 ≤ overallOverlap mbp := by
  unfold overallOverlap
  apply listMean_nonneg
  intro x hx
  rw [List.mem_map] at hx
  obtain ⟨e, he, hxe⟩ := hx
  subst hxe
  unfold paperScores at he
  rw [List.mem_map] at he
  obtain ⟨q, hq, hqe⟩ := he
  subst hqe
  show 0 ≤ (perPaperScore q.2).overlap_percentage
  unfold perPaperScore
  dsimp only
  apply pyRound_nonneg
  have hw : 0 ≤ listMean (q.2.map weightedScore) := by
    apply listMean_nonneg
    intro w hw
    rw [List.mem_map] at hw
    obtain ⟨mm, hmm, hwe⟩ := hw
    subst hwe
    unfold weightedScore
    have hs := h q (List.mem_of_mem_filter hq) mm hmm
    apply mul_nonneg hs
    split <;> norm_num
  have := mul_nonneg hw (by norm_num : (0 : ℚ) ≤ 100)
  linarith

/-- C1 (as amended): for every report built from a match mapping in
which at least one candidate has a qualifying match (and whose
similarities are nonnegative, as the matcher guarantees), the report's
novelty score equals `clamp(100 − overall_overlap_pct, 0, 100)`. In
the zero-signal (`UNKNOWN`) case this fails: see the counterexample. -/
theorem C1_novelty_clamp (n : ℕ) (mbp : List (String × List MatchRec))
    (h1 : ∃ p ∈ mbp, p.2 ≠ [])
    (h2 : ∀ p ∈ mbp, ∀ mm ∈ p.2, 0 ≤ mm.similarity_score) :
    (agent5_risk_scoring_report n mbp).novelty_score =
      clamp
        (100 - (agent5_risk_scoring_report n mbp).analysis_scores.overall_overlap_pct)
        0 100 := by
  have hov := overallOverlap_nonneg mbp h2
  have hro : 0 ≤ pyRound 1 (overallOverlap mbp) := pyRound_nonneg 1 hov
  show (agent5_scores mbp).novelty_score =
    clamp (100 - (agent5_scores mbp).overall_overlap_pct) 0 100
  unfold agent5_scores
  rw [compute_nonsentinel mbp h1]
  dsimp only [Option.getD_some]
  rw [pyRound_novelty]
  unfold clamp
  rw [min_eq_right (by linarith)]

/-- C1 counterexample: the zero-candidate run yields the `UNKNOWN`
report with `novelty_score = 0.0` and `overall_overlap_pct = 0.0`
(the `None` fallbacks of graph.py lines 150-155), so
`novelty_score ≠ clamp(100 − overall_overlap_pct, 0, 100) = 100` —
the invariant does not hold for the `UNKNOWN` report. -/
theorem C1_counterexample :
    (agent5_risk_scoring_report 0 []).novelty_score = 0 ∧
    (agent5_risk_scoring_report 0 []).analysis_scores.overall_overlap_pct = 0 ∧
    (agent5_risk_scoring_report 0 []).overall_plagiarism_risk = "UNKNOWN" ∧
    (agent5_risk_scoring_report 0 []).total_internet_papers_analyzed = 0 ∧
    (agent5_risk_scoring_report 0 []).used_fixed_advisory = true ∧
    (agent5_risk_scoring_report 0 []).novelty_score ≠
      clamp
        (100 - (agent5_risk_scoring_report 0 []).analysis_scores.overall_overlap_pct)
        0 100 := by
  have hs := compute_sentinel ([] : List (String × List MatchRec)) (by simp)
  refine ⟨?_, ?_, ?_, rfl, rfl, ?_⟩
  · show (agent5_scores []).novelty_score = 0
    unfold agent5_scores
    rw [hs]
    rfl
  · show (agent5_scores []).overall_overlap_pct = 0
    unfold agent5_scores
    rw [hs]
    rfl
  · show (agent5_scores []).risk_assessment = "UNKNOWN"
    unfold agent5_scores
    rw [hs]
  · have h1 : (agent5_risk_scoring_report 0 []).novelty_score = 0 := by
      show (agent5_scores []).novelty_score = 0
      unfold agent5_scores
      rw [hs]
      rfl
    have h2 : (agent5_risk_scoring_report 0 []).analysis_scores.overall_overlap_pct = 0 := by
      show (agent5_scores []).overall_overlap_pct = 0
      unfold agent5_scores
      rw [hs]
      rfl
    rw [h1, h2]
    norm_num [clamp]


/-- C1 witness: on a one-candidate run with a `0.95` match the clamp
relation holds. -/
theorem C1_witness :
    (agent5_risk_scoring_report 1 [("a", [mkMatch (95/100) "other"])]).novelty_score =
      clamp
        (100 -
          (agent5_risk_scoring_report 1
            [("a", [mkMatch (95/100) "other"])]).analysis_scores.overall_overlap_pct)
        0 100 := by
  apply C1_novelty_clamp 1 [("a", [mkMatch (95/100) "other"])]
  · exact ⟨("a", [mkMatch (95/100) "other"]), by simp, by simp⟩
  · intro p hp mm hmm
    simp only [List.mem_singleton] at hp
    subst hp
    simp only [List.mem_singleton] at hmm
    subst hmm
    norm_num [mkMatch]

/-! ## Claim C8 -/

theorem dictGet_insert_self {α : Type} (d : List (String × α)) (k : String)
    (v : α) : dictGet (dictInsert d k v) k = some v := by
  induction d with
  | nil => simp [dictInsert, dictGet]
  | cons hd tl ih =>
    obtain ⟨k', v'⟩ := hd
    by_cases h : k' = k <;> simp [dictInsert, dictGet, h, ih]

theorem dictGet_insert_ne {α : Type} (d : List (String × α)) (k k' : String)
    (v : α) (h : k' ≠ k) :
    dictGet (dictInsert d k v) k' = dictGet d k' := by
  have hkk : ¬ k = k' := fun hc => h (Eq.symm hc)
  induction d with
  | nil =>
    simp only [dictInsert, dictGet]
    rw [if_neg hkk]
  | cons hd tl ih =>
    obtain ⟨a, b⟩ := hd
    simp only [dictInsert]
    by_cases ha : a = k
    · subst ha
      rw [if_pos rfl]
      simp only [dictGet]
      rw [if_neg hkk, if_neg hkk]
    · rw [if_neg ha]
      simp only [dictGet]
      by_cases ha' : a = k'
      · rw [if_pos ha', if_pos ha']
      · rw [if_neg ha', if_neg ha', ih]

theorem explainStep_skip (acc : List String × List (String × ℚ) × ℕ)
    (i : ℕ) (m : MatchRec) (h : m.user_concept = "") :
    explainStep acc (i, m) = acc := by
  simp [explainStep, h]

theorem explainStep_go (acc : List String × List (String × ℚ) × ℕ)
    (i : ℕ) (m : MatchRec) (h : m.user_concept ≠ "") :
    explainStep acc (i, m) =
      (acc.1 ++ [phraseOf m],
        dictInsert acc.2.1 (keyOf i m) m.similarity_score,
        acc.2.2 + if m.is_false_positive then 1 else 0) := by
  simp [explainStep, h]

/-- Keys of entries at distinct single-digit ordinals never collide,
whatever the phrase texts: the digit prefix disambiguates. -/
theorem keyOf_ne_of_idx_ne {i j : ℕ} (hi : i < 10) (hj : j < 10)
    (hne : i ≠ j) (s t : String) :
    ¬ (toString i ++ "_" ++ s = toString j ++ "_" ++ t) := by
  intro hcontra
  have hdata := congrArg String.data hcontra
  rw [String.data_append, String.data_append, String.data_append,
    String.data_append] at hdata
  have hu : ("_" : String).data = ['_'] := rfl
  rw [hu] at hdata
  have hti : (toString i).data.length = 1 := by interval_cases i <;> rfl
  have htj : (toString j).data.length = 1 := by interval_cases j <;> rfl
  obtain ⟨a, ha⟩ := List.length_eq_one.mp hti
  obtain ⟨b, hb⟩ := List.length_eq_one.mp htj
  rw [ha, hb] at hdata
  simp only [List.cons_append, List.nil_append, List.cons.injEq] at hdata
  have hij : (toString i).data = (toString j).data := by
    rw [ha, hb, hdata.1]
  have : i = j := by
    interval_cases i <;> interval_cases j <;>
      first | rfl | (exact absurd hij (by decide))
  exact hne this

theorem foldl_explainStep_stable (l : List (ℕ × MatchRec))
    (acc : List String × List (String × ℚ) × ℕ) (k : String)
    (h : ∀ im ∈ l, ∀ s : String, ¬ (toString im.1 ++ "_" ++ s = k)) :
    dictGet (l.foldl explainStep acc).2.1 k = dictGet acc.2.1 k := by
  induction l generalizing acc with
  | nil => rfl
  | cons hd tl ih =>
    rw [List.foldl_cons,
      ih _ fun im him s => h im (List.mem_cons_of_mem _ him) s]
    obtain ⟨i, m⟩ := hd
    by_cases hm : m.user_concept = ""
    · rw [explainStep_skip _ _ _ hm]
    · rw [explainStep_go _ _ _ hm]
      exact dictGet_insert_ne _ _ _ _
        fun hc => h (i, m) (List.mem_cons_self _ _) (phraseOf m) (Eq.symm hc)

theorem foldl_explainStep_phrases (l : List (ℕ × MatchRec))
    (acc : List String × List (String × ℚ) × ℕ) :
    ∃ t, (l.foldl explainStep acc).1 = acc.1 ++ t := by
  induction l generalizing acc with
  | nil => exact ⟨[], (List.append_nil _).symm⟩
  | cons hd tl ih =>
    rw [List.foldl_cons]
    obtain ⟨i, m⟩ := hd
    by_cases hm : m.user_concept = ""
    · rw [explainStep_skip _ _ _ hm]
      exact ih acc
    · rw [explainStep_go _ _ _ hm]
      obtain ⟨t, ht⟩ := ih (acc.1 ++ [phraseOf m],
        dictInsert acc.2.1 (keyOf i m) m.similarity_score,
        acc.2.2 + if m.is_false_positive then 1 else 0)
      exact ⟨phraseOf m :: t, by rw [ht]; simp⟩

theorem foldl_explainStep_mem (l : List (ℕ × MatchRec))
    (acc : List String × List (String × ℚ) × ℕ)
    (hidx : ∀ im ∈ l, im.1 < 10) (hnod : (l.map Prod.fst).Nodup)
    (i : ℕ) (m : MatchRec) (him : (i, m) ∈ l) (hm : m.user_concept ≠ "") :
    dictGet (l.foldl explainStep acc).2.1 (keyOf i m) =
      some m.similarity_score ∧
      phraseOf m ∈ (l.foldl explainStep acc).1 := by
  induction l generalizing acc with
  | nil => cases him
  | cons hd tl ih =>
    have hnodtl : (tl.map Prod.fst).Nodup := (List.nodup_cons.mp hnod).2
    rw [List.foldl_cons]
    rcases List.mem_cons.mp him with heq | hmem
    · subst heq
      constructor
      · rw [foldl_explainStep_stable tl _ _ ?hstable]
        · rw [explainStep_go _ _ _ hm]
          exact dictGet_insert_self _ _ _
        case hstable =>
          intro im him2 s
          have hii : im.1 ≠ i := by
            intro hii
            have hmemf : i ∈ tl.map Prod.fst :=
              hii ▸ List.mem_map_of_mem Prod.fst him2
            exact (List.nodup_cons.mp hnod).1 hmemf
          exact keyOf_ne_of_idx_ne
            (hidx im (List.mem_cons_of_mem _ him2))
            (hidx (i, m) (List.mem_cons_self _ _)) hii s (phraseOf m)
      · obtain ⟨t, ht⟩ := foldl_explainStep_phrases tl (explainStep acc (i, m))
        rw [ht, explainStep_go _ _ _ hm]
        simp
    · exact ih (explainStep acc hd)
        (fun im h2 => hidx im (List.mem_cons_of_mem _ h2)) hnodtl hmem

/-- C8: the Explainability Formatter uses at most the first 10 matches;
each kept entry's similarity is recorded under the key
`"{ordinal}_{phrase}"` with the phrase being the source concept text
truncated to 80 characters (and stripped), so entries at distinct
ordinals never overwrite one another even with identical phrase text;
and on empty input it returns `([], {}, 0)` without failing. -/
theorem C8_formatter :
    (format_explainability [] =
      { top_contributing_phrases := []
        attention_weights := []
        false_positives_filtered := 0 }) ∧
    (∀ ms : List MatchRec,
      format_explainability ms = format_explainability (ms.take 10)) ∧
    (∀ (ms : List MatchRec) (i : ℕ) (hi : i < ms.length), i < 10 →
      (ms.get ⟨i, hi⟩).user_concept ≠ "" →
      dictGet (format_explainability ms).attention_weights
          (keyOf i (ms.get ⟨i, hi⟩)) =
        some (ms.get ⟨i, hi⟩).similarity_score ∧
      phraseOf (ms.get ⟨i, hi⟩) ∈
        (format_explainability ms).top_contributing_phrases) := by
  refine ⟨rfl, ?_, ?_⟩
  · intro ms
    by_cases h : ms = []
    · subst h; rfl
    · have h10 : ms.take 10 ≠ [] := by
        intro hc
        rcases List.take_eq_nil_iff.mp hc with h0 | h0
        · norm_num at h0
        · exact h h0
      unfold format_explainability
      rw [if_neg (by simpa [List.isEmpty_iff] using h),
        if_neg (by simpa [List.isEmpty_iff] using h10), List.take_take]
      norm_num
  · intro ms i hi h10 hm
    have hms : ms ≠ [] :=
      List.ne_nil_of_length_pos (lt_of_le_of_lt (Nat.zero_le i) hi)
    have hlen : i < (ms.take 10).length := by
      rw [List.length_take]; exact lt_min h10 hi
    have hget : (ms.take 10).get ⟨i, hlen⟩ = ms.get ⟨i, hi⟩ := by
      simp [List.getElem_take]
    have hmem : (i, ms.get ⟨i, hi⟩) ∈ (ms.take 10).enum := by
      have hlene : i < (ms.take 10).enum.length := by
        rw [List.enum_length]; exact hlen
      have : (ms.take 10).enum.get ⟨i, hlene⟩ = (i, ms.get ⟨i, hi⟩) := by
        rw [List.get_eq_getElem, List.getElem_enum, ← hget]
        rfl
      rw [← this]
      exact List.get_mem _ _ _
    have hidx : ∀ im ∈ (ms.take 10).enum, im.1 < 10 := by
      intro im him
      have h1 : im.1 ∈ (ms.take 10).enum.map Prod.fst :=
        List.mem_map_of_mem _ him
      rw [List.enum_map_fst] at h1
      have h2 := List.mem_range.mp h1
      have h3 : (ms.take 10).length ≤ 10 := List.length_take_le 10 ms
      omega
    have hnod : ((ms.take 10).enum.map Prod.fst).Nodup := by
      rw [List.enum_map_fst]; exact List.nodup_range _
    have hfmt : format_explainability ms =
        { top_contributing_phrases := ((ms.take 10).enum.foldl explainStep ([], [], 0)).1
          attention_weights := ((ms.take 10).enum.foldl explainStep ([], [], 0)).2.1
          false_positives_filtered := ((ms.take 10).enum.foldl explainStep ([], [], 0)).2.2 } := by
      unfold format_explainability
      rw [if_neg (by simpa [List.isEmpty_iff] using hms)]
    rw [hfmt]
    exact foldl_explainStep_mem _ ([], [], 0) hidx hnod i _ hmem hm

/-- C8 witness: two distinct matches with identical truncated phrase
text both keep their weights, under the ordinal-prefixed keys `0_…` and
`1_…`. -/
theorem C8_witness :
    (dictGet (format_explainability exDupMatches).attention_weights
        (keyOf 0 (exDupMatches.get ⟨0, by decide⟩)) =
      some (exDupMatches.get ⟨0, by decide⟩).similarity_score) ∧
    (dictGet (format_explainability exDupMatches).attention_weights
        (keyOf 1 (exDupMatches.get ⟨1, by decide⟩)) =
      some (exDupMatches.get ⟨1, by decide⟩).similarity_score) :=
  ⟨(C8_formatter.2.2 exDupMatches 0 (by decide) (by decide) (by decide)).1,
    (C8_formatter.2.2 exDupMatches 1 (by decide) (by decide) (by decide)).1⟩

end Plag
